import Mathlib

/-!
A shallow embedding of the Tegra watchdog driver
(drivers/watchdog/tegra_wdt.c) and proofs about its control protocol.

The driver state (`struct tegra_wdt`) is modelled by `TegraWdt`; the
memory-mapped hardware registers are abstracted to an `armed` flag (set by
`tegra_wdt_enable`, cleared by `tegra_wdt_disable`) together with a ghost
`ping_count` that counts acknowledge operations, and the interrupt-line
state (`irq_enabled`, `tasklet_scheduled`, `irq_counter`) used by the
Tegra-2x (Simple variant) interrupt path.  User-space copies (`get_user`,
`put_user`, `copy_to_user`) are modelled by explicit success flags plus the
value that user memory holds.  Errors are the C negative errno returns.
-/

/-- Linux errno: device or resource busy. -/
def EBUSY : Int := 16

/-- Linux errno: bad address (user-space copy failure). -/
def EFAULT : Int := 14

/-- Linux errno: invalid argument. -/
def EINVAL : Int := 22

/-- Linux errno: inappropriate ioctl for device. -/
def ENOTTY : Int := 25

/-- Minimum watchdog trigger period in seconds (MIN_WDT_PERIOD). -/
def MIN_WDT_PERIOD : Int := 5

/-- Maximum watchdog trigger period in seconds (MAX_WDT_PERIOD). -/
def MAX_WDT_PERIOD : Int := 1000

/-- Default heartbeat period in seconds (WDT_DEFAULT_TIME). -/
def WDT_DEFAULT_TIME : Int := 60

/-- WDIOS_DISABLECARD option bit of the SETOPTIONS ioctl. -/
def WDIOS_DISABLECARD : Nat := 1

/-- WDIOS_ENABLECARD option bit of the SETOPTIONS ioctl. -/
def WDIOS_ENABLECARD : Nat := 2

/-- Size in bytes of `struct watchdog_info`; `copy_to_user` returns the
number of bytes it failed to copy, so a completely failed GETSUPPORT copy
returns this value. -/
def watchdog_info_size : Int := 40

/-- The `enum tegra_wdt_status` bitmask (WDT_DISABLED, WDT_ENABLED,
WDT_KERNEL_HEARTBEAT are disjoint bits), modelled as one boolean per bit. -/
structure WdtStatus where
  disabled : Bool
  enabled : Bool
  kernelHeartbeat : Bool
deriving DecidableEq, Repr

/-- The driver state `struct tegra_wdt`, with the hardware registers
abstracted to `armed` and the ghost observation `ping_count`. -/
structure TegraWdt where
  /-- bit 1 of `wdt->users`, the single-open exclusivity flag -/
  users : Bool
  /-- `wdt->timeout` (C int, seconds) -/
  timeout : Int
  /-- `wdt->status` bitmask -/
  status : WdtStatus
  /-- `wdt->way_out_ok` (C int used as a boolean) -/
  way_out_ok : Bool
  /-- the hardware countdown is programmed and running (the registers
  written by `tegra_wdt_enable` hold their enable bits) -/
  armed : Bool
  /-- `wdt->irq_counter` (Simple variant bookkeeping of unacknowledged
  expiry interrupts) -/
  irq_counter : Nat
  /-- the interrupt line delivers (toggled by enable_irq / disable_irq_nosync) -/
  irq_enabled : Bool
  /-- the diagnostic-log tasklet has been scheduled -/
  tasklet_scheduled : Bool
  /-- ghost counter: number of acknowledge (ping) operations performed -/
  ping_count : Nat
deriving DecidableEq, Repr

/-- `tegra_wdt_enable`: program the timer period and the reset-enable
register; abstractly, arm the hardware. -/
def tegra_wdt_enable (w : TegraWdt) : TegraWdt :=
  { w with armed := true }

/-- `tegra_wdt_disable`: zero the reset-enable and period registers;
abstractly, disarm the hardware. -/
def tegra_wdt_disable (w : TegraWdt) : TegraWdt :=
  { w with armed := false }

/-- `tegra_wdt_ping`, Simple (Tegra-2x) variant: re-issue the full arm
sequence, and if a prior expiry interrupt happened (`irq_counter` nonzero)
clear the pending bit, zero the counter and re-enable the interrupt line.
The ghost `ping_count` records that an acknowledge occurred. -/
def tegra_wdt_ping (w : TegraWdt) : TegraWdt :=
  let w1 := { tegra_wdt_enable w with ping_count := w.ping_count + 1 }
  if w1.irq_counter ≠ 0 then
    { w1 with irq_counter := 0, irq_enabled := true }
  else
    w1

/-- `tegra_wdt_ping`, Guarded (Tegra-3x) variant: write WDT_CMD_START_COUNTER
only; abstractly, restart the countdown. -/
def tegra_wdt_ping_guarded (w : TegraWdt) : TegraWdt :=
  { w with armed := true, ping_count := w.ping_count + 1 }

/-- `tegra_wdt_interrupt`, Simple (Tegra-2x) variant: count the interrupt;
if the instance is kernel-heartbeat owned, ping; otherwise schedule the
diagnostic-log tasklet and disable further delivery on the line. -/
def tegra_wdt_interrupt (w : TegraWdt) : TegraWdt :=
  let w1 := { w with irq_counter := w.irq_counter + 1 }
  if w1.status.kernelHeartbeat then
    tegra_wdt_ping w1
  else
    { w1 with tasklet_scheduled := true, irq_enabled := false }

/-- `tegra_wdt_interrupt_instance`, Guarded (Tegra-3x) variant: ping on
behalf of the kernel heartbeat owner, or do nothing. -/
def tegra_wdt_interrupt_instance (w : TegraWdt) : TegraWdt :=
  if w.status.kernelHeartbeat then
    tegra_wdt_ping_guarded w
  else
    w

/-- Kernel `clamp(val, lo, hi)`. -/
def clamp (val lo hi : Int) : Int :=
  min (max val lo) hi

/-- `tegra_wdt_open`: `test_and_set_bit(1, &wdt->users)` fails with -EBUSY
if the bit is already set; otherwise reset `way_out_ok`, set WDT_ENABLED,
load the module heartbeat as the timeout and arm the hardware.  Returns
the C return value paired with the new driver state. -/
def tegra_wdt_open (heartbeat : Int) (w : TegraWdt) : Int × TegraWdt :=
  if w.users then
    (-EBUSY, w)
  else
    let w1 := { w with
      users := true,
      way_out_ok := false,
      status := { w.status with enabled := true },
      timeout := heartbeat }
    (0, tegra_wdt_enable w1)

/-- `tegra_wdt_release`: if enabled and `nowayout` is not set, disable and
set the status to WDT_DISABLED when the magic close was received, else only
log; with `nowayout` set, only log.  Always clear the users bit. -/
def tegra_wdt_release (nowayout : Bool) (w : TegraWdt) : Int × TegraWdt :=
  let w1 :=
    if w.status.enabled && !nowayout then
      if w.way_out_ok then
        let wd := tegra_wdt_disable w
        { wd with status := ⟨true, false, false⟩ }
      else
        w
    else
      w
  (0, { w1 with users := false })

/-- `tegra_wdt_write`: a zero-length write does nothing and returns 0.
A nonzero-length write first pings, then reads the last byte of the user
buffer; if that `get_user` faults the call returns -EFAULT, otherwise
`way_out_ok` is set exactly when the last byte is 'V' and the length is
returned.  `buf` is the contents of the user buffer and `copyOk` whether
the `get_user` succeeds. -/
def tegra_wdt_write (w : TegraWdt) (buf : List Char) (copyOk : Bool) :
    Int × TegraWdt :=
  match buf.getLast? with
  | none => ((buf.length : Int), w)
  | some c =>
    let w1 := tegra_wdt_ping w
    if copyOk then
      ((buf.length : Int), { w1 with way_out_ok := c == 'V' })
    else
      (-EFAULT, w1)

/-- The ioctl commands of the driver, with the argument value held in user
memory for the `get_user` commands. -/
inductive WdtCmd where
  | GETSUPPORT : WdtCmd
  | GETSTATUS : WdtCmd
  | GETBOOTSTATUS : WdtCmd
  | KEEPALIVE : WdtCmd
  | SETTIMEOUT (new_timeout : Int) : WdtCmd
  | GETTIMEOUT : WdtCmd
  | SETOPTIONS (option : Nat) : WdtCmd
  | UNKNOWN : WdtCmd
deriving DecidableEq, Repr

/-- `tegra_wdt_ioctl`.  `argReadOk` models the success of the `get_user`
of the command argument, `argWriteOk` the success of the `put_user` /
`copy_to_user` of the reply.  Returns the C return value, the value stored
to user memory by a successful `put_user` (if any), and the new state.
Note: the SETTIMEOUT case has no `break` and falls through into
GETTIMEOUT, and GETSUPPORT returns the `copy_to_user` result directly. -/
def tegra_wdt_ioctl (nowayout : Bool) (w : TegraWdt) (cmd : WdtCmd)
    (argReadOk argWriteOk : Bool) : Int × Option Int × TegraWdt :=
  match cmd with
  | .GETSUPPORT =>
    (if argWriteOk then 0 else watchdog_info_size, none, w)
  | .GETSTATUS =>
    if argWriteOk then (0, some 0, w) else (-EFAULT, none, w)
  | .GETBOOTSTATUS =>
    if argWriteOk then (0, some 0, w) else (-EFAULT, none, w)
  | .KEEPALIVE =>
    (0, none, tegra_wdt_ping w)
  | .SETTIMEOUT new_timeout =>
    if !argReadOk then
      (-EFAULT, none, w)
    else
      let w1 := tegra_wdt_disable w
      let w2 := { w1 with
        timeout := clamp new_timeout MIN_WDT_PERIOD MAX_WDT_PERIOD }
      let w3 := tegra_wdt_enable w2
      if argWriteOk then (0, some w3.timeout, w3) else (-EFAULT, none, w3)
  | .GETTIMEOUT =>
    if argWriteOk then (0, some w.timeout, w) else (-EFAULT, none, w)
  | .SETOPTIONS option =>
    if !argReadOk then
      (-EFAULT, none, w)
    else if option &&& WDIOS_DISABLECARD ≠ 0 && !nowayout then
      let w1 := { w with status :=
        { w.status with enabled := false, disabled := true } }
      (0, none, tegra_wdt_disable w1)
    else if option &&& WDIOS_ENABLECARD ≠ 0 then
      let w1 := tegra_wdt_enable w
      (0, none, { w1 with status :=
        { w1.status with enabled := true, disabled := false } })
    else
      (-EINVAL, none, w)
  | .UNKNOWN =>
    (-ENOTTY, none, w)

/-- The driver state established by `tegra_wdt_probe` for an instance that
is not the kernel-heartbeat owner: zero-filled allocation, then
`tegra_wdt_disable`, then `status = WDT_DISABLED`. -/
def probe_state : TegraWdt :=
  { users := false
    timeout := 0
    status := ⟨true, false, false⟩
    way_out_ok := false
    armed := false
    irq_counter := 0
    irq_enabled := true
    tasklet_scheduled := false
    ping_count := 0 }

/-- The driver state established by `tegra_wdt_probe` for the nominated
kernel-heartbeat instance: `status = WDT_ENABLED | WDT_KERNEL_HEARTBEAT`,
`timeout = heartbeat`, users bit set, hardware armed. -/
def probe_heartbeat_state (heartbeat : Int) : TegraWdt :=
  { probe_state with
    users := true
    timeout := heartbeat
    status := ⟨false, true, true⟩
    armed := true }

/-- One invocation of a file operation or of the interrupt handler. -/
inductive WdtOp where
  | op_open : WdtOp
  | op_release : WdtOp
  | op_write (buf : List Char) (copyOk : Bool) : WdtOp
  | op_ioctl (cmd : WdtCmd) (argReadOk argWriteOk : Bool) : WdtOp
  | op_interrupt : WdtOp

/-- The state transformation performed by one operation (its return value
discarded). -/
def wdt_step (heartbeat : Int) (nowayout : Bool) (w : TegraWdt) :
    WdtOp → TegraWdt
  | .op_open => (tegra_wdt_open heartbeat w).2
  | .op_release => (tegra_wdt_release nowayout w).2
  | .op_write buf copyOk => (tegra_wdt_write w buf copyOk).2
  | .op_ioctl cmd r wr => (tegra_wdt_ioctl nowayout w cmd r wr).2.2
  | .op_interrupt => tegra_wdt_interrupt w

/-- Run a sequence of operations. -/
def wdt_run (heartbeat : Int) (nowayout : Bool) (w : TegraWdt) :
    List WdtOp → TegraWdt
  | [] => w
  | op :: ops => wdt_run heartbeat nowayout (wdt_step heartbeat nowayout w op) ops

/-- A driver state together with the ghost fact of whether a file handle
from a successful open is currently live (write/ioctl/release can only be
invoked on such a handle). -/
structure SysState where
  wdt : TegraWdt
  session : Bool
deriving DecidableEq, Repr

/-- The states reachable from a probe through the file operations and the
interrupt handler.  write, ioctl and release require a live handle; open
creates one when it succeeds. -/
inductive Reachable (heartbeat : Int) (nowayout : Bool) : SysState → Prop where
  | probe : Reachable heartbeat nowayout ⟨probe_state, false⟩
  | probe_hb : Reachable heartbeat nowayout ⟨probe_heartbeat_state heartbeat, false⟩
  | do_open {s : SysState} : Reachable heartbeat nowayout s →
      Reachable heartbeat nowayout
        ⟨(tegra_wdt_open heartbeat s.wdt).2, s.session || !s.wdt.users⟩
  | do_release {s : SysState} : Reachable heartbeat nowayout s →
      s.session = true →
      Reachable heartbeat nowayout ⟨(tegra_wdt_release nowayout s.wdt).2, false⟩
  | do_write {s : SysState} (buf : List Char) (copyOk : Bool) :
      Reachable heartbeat nowayout s → s.session = true →
      Reachable heartbeat nowayout ⟨(tegra_wdt_write s.wdt buf copyOk).2, s.session⟩
  | do_ioctl {s : SysState} (cmd : WdtCmd) (argReadOk argWriteOk : Bool) :
      Reachable heartbeat nowayout s → s.session = true →
      Reachable heartbeat nowayout
        ⟨(tegra_wdt_ioctl nowayout s.wdt cmd argReadOk argWriteOk).2.2, s.session⟩
  | do_interrupt {s : SysState} : Reachable heartbeat nowayout s →
      Reachable heartbeat nowayout ⟨tegra_wdt_interrupt s.wdt, s.session⟩

/-! Field behavior of the hardware primitives. -/

@[simp]
theorem ping_armed (w : TegraWdt) : (tegra_wdt_ping w).armed = true := by
  simp only [tegra_wdt_ping, tegra_wdt_enable]
  split <;> rfl

@[simp]
theorem ping_status (w : TegraWdt) : (tegra_wdt_ping w).status = w.status := by
  simp only [tegra_wdt_ping, tegra_wdt_enable]
  split <;> rfl

@[simp]
theorem ping_timeout (w : TegraWdt) : (tegra_wdt_ping w).timeout = w.timeout := by
  simp only [tegra_wdt_ping, tegra_wdt_enable]
  split <;> rfl

@[simp]
theorem ping_users (w : TegraWdt) : (tegra_wdt_ping w).users = w.users := by
  simp only [tegra_wdt_ping, tegra_wdt_enable]
  split <;> rfl

@[simp]
theorem ping_way_out_ok (w : TegraWdt) :
    (tegra_wdt_ping w).way_out_ok = w.way_out_ok := by
  simp only [tegra_wdt_ping, tegra_wdt_enable]
  split <;> rfl

@[simp]
theorem ping_ping_count (w : TegraWdt) :
    (tegra_wdt_ping w).ping_count = w.ping_count + 1 := by
  simp only [tegra_wdt_ping, tegra_wdt_enable]
  split <;> rfl

@[simp]
theorem interrupt_status (w : TegraWdt) :
    (tegra_wdt_interrupt w).status = w.status := by
  simp only [tegra_wdt_interrupt]
  split
  · exact ping_status _
  · rfl

@[simp]
theorem interrupt_timeout (w : TegraWdt) :
    (tegra_wdt_interrupt w).timeout = w.timeout := by
  simp only [tegra_wdt_interrupt]
  split
  · exact ping_timeout _
  · rfl

/-- C10: a write call of length zero returns 0, performs no ping, and leaves
the whole driver state (in particular `way_out_ok`) untouched. -/
theorem write_zero_length_noop (w : TegraWdt) (copyOk : Bool) :
    tegra_wdt_write w [] copyOk = (0, w) := rfl

/-- C3: every nonzero-length write with a readable buffer pings the hardware
(the acknowledge counter increases and the countdown is re-armed) and leaves
`way_out_ok` true exactly when the last byte written is 'V'. -/
theorem write_pings_and_sets_magic (w : TegraWdt) (buf : List Char)
    (h : buf ≠ []) :
    (tegra_wdt_write w buf true).2.ping_count = w.ping_count + 1
    ∧ (tegra_wdt_write w buf true).2.armed = true
    ∧ ((tegra_wdt_write w buf true).2.way_out_ok = true
        ↔ buf.getLast? = some 'V') := by
  have hc : buf.getLast? = some (buf.getLast h) := List.getLast?_eq_getLast buf h
  refine ⟨?_, ?_, ?_⟩ <;> simp [tegra_wdt_write, hc]

/-- Witness for C3 at the concrete buffer "okV". -/
theorem write_pings_and_sets_magic_witness :
    (['o', 'k', 'V'] : List Char) ≠ []
    ∧ (tegra_wdt_write probe_state ['o', 'k', 'V'] true).2.way_out_ok = true := by
  have h := write_pings_and_sets_magic probe_state ['o', 'k', 'V'] (by decide)
  exact ⟨by decide, h.2.2.mpr (by decide)⟩

/-- C4: open fails with -EBUSY and changes nothing when the users bit is
already set; otherwise it takes the users bit, clears `way_out_ok`, adds
Enabled to the status, loads the module heartbeat as timeout and arms the
hardware. -/
theorem open_busy_or_arms (heartbeat : Int) (w : TegraWdt) :
    (w.users = true → tegra_wdt_open heartbeat w = (-EBUSY, w))
    ∧ (w.users = false → tegra_wdt_open heartbeat w =
        (0, { w with
          users := true,
          way_out_ok := false,
          status := { w.status with enabled := true },
          timeout := heartbeat,
          armed := true })) := by
  constructor <;> intro h <;> simp [tegra_wdt_open, tegra_wdt_enable, h]

/-- Witness for C4: busy on the probe-armed heartbeat instance, success on
a freshly probed one. -/
theorem open_busy_or_arms_witness :
    (probe_heartbeat_state 60).users = true
    ∧ tegra_wdt_open 60 (probe_heartbeat_state 60)
        = (-EBUSY, probe_heartbeat_state 60)
    ∧ probe_state.users = false
    ∧ (tegra_wdt_open 60 probe_state).1 = 0
    ∧ (tegra_wdt_open 60 probe_state).2.armed = true := by
  refine ⟨by decide, ?_, by decide, ?_, ?_⟩
  · exact (open_busy_or_arms 60 (probe_heartbeat_state 60)).1 (by decide)
  · rw [(open_busy_or_arms 60 probe_state).2 (by decide)]
  · rw [(open_busy_or_arms 60 probe_state).2 (by decide)]

/-- C8: on a timer-expiry interrupt a kernel-heartbeat-owned instance is
pinged by the handler itself (both hardware variants); a non-heartbeat
instance on the Simple variant is not pinged, the interrupt line is
disabled, and the diagnostic-log tasklet is scheduled, while the Guarded
per-instance handler leaves the state untouched. -/
theorem interrupt_handler_policy (w : TegraWdt) :
    (w.status.kernelHeartbeat = true →
      (tegra_wdt_interrupt w).ping_count = w.ping_count + 1
      ∧ (tegra_wdt_interrupt w).armed = true
      ∧ (tegra_wdt_interrupt_instance w).ping_count = w.ping_count + 1
      ∧ (tegra_wdt_interrupt_instance w).armed = true)
    ∧ (w.status.kernelHeartbeat = false →
      (tegra_wdt_interrupt w).ping_count = w.ping_count
      ∧ (tegra_wdt_interrupt w).armed = w.armed
      ∧ (tegra_wdt_interrupt w).irq_enabled = false
      ∧ (tegra_wdt_interrupt w).tasklet_scheduled = true
      ∧ tegra_wdt_interrupt_instance w = w) := by
  constructor <;> intro h <;>
    simp [tegra_wdt_interrupt, tegra_wdt_interrupt_instance,
      tegra_wdt_ping_guarded, h]

/-- Witness for C8 at the heartbeat probe state and the plain probe state. -/
theorem interrupt_handler_policy_witness :
    (probe_heartbeat_state 60).status.kernelHeartbeat = true
    ∧ (tegra_wdt_interrupt (probe_heartbeat_state 60)).armed = true
    ∧ probe_state.status.kernelHeartbeat = false
    ∧ (tegra_wdt_interrupt probe_state).tasklet_scheduled = true := by
  refine ⟨by decide, ?_, by decide, ?_⟩
  · exact ((interrupt_handler_policy (probe_heartbeat_state 60)).1 (by decide)).2.1
  · exact ((interrupt_handler_policy probe_state).2 (by decide)).2.2.2.1

/-- C5: SETTIMEOUT applies the clamp of the requested value to [5,1000],
reports the applied value back through its GETTIMEOUT fallthrough, and a
subsequent GETTIMEOUT returns the same applied value; the clamp is the
identity on [5,1000] and the nearest bound outside it. -/
theorem settimeout_gettimeout_clamp (nowayout : Bool) (w : TegraWdt) (t : Int) :
    (tegra_wdt_ioctl nowayout w (.SETTIMEOUT t) true true).2.1
        = some (clamp t MIN_WDT_PERIOD MAX_WDT_PERIOD)
    ∧ (tegra_wdt_ioctl nowayout w (.SETTIMEOUT t) true true).2.2.timeout
        = clamp t MIN_WDT_PERIOD MAX_WDT_PERIOD
    ∧ (tegra_wdt_ioctl nowayout
          (tegra_wdt_ioctl nowayout w (.SETTIMEOUT t) true true).2.2
          .GETTIMEOUT true true).2.1
        = some (clamp t MIN_WDT_PERIOD MAX_WDT_PERIOD)
    ∧ (MIN_WDT_PERIOD ≤ t → t ≤ MAX_WDT_PERIOD →
        clamp t MIN_WDT_PERIOD MAX_WDT_PERIOD = t)
    ∧ (t < MIN_WDT_PERIOD → clamp t MIN_WDT_PERIOD MAX_WDT_PERIOD = MIN_WDT_PERIOD)
    ∧ (MAX_WDT_PERIOD < t → clamp t MIN_WDT_PERIOD MAX_WDT_PERIOD = MAX_WDT_PERIOD) := by
  refine ⟨?_, ?_, ?_, ?_, ?_, ?_⟩
  · simp [tegra_wdt_ioctl, tegra_wdt_enable, tegra_wdt_disable]
  · simp [tegra_wdt_ioctl, tegra_wdt_enable, tegra_wdt_disable]
  · simp [tegra_wdt_ioctl, tegra_wdt_enable, tegra_wdt_disable]
  · intro h1 h2
    simp only [clamp, MIN_WDT_PERIOD, MAX_WDT_PERIOD] at h1 h2 ⊢
    omega
  · intro h1
    simp only [clamp, MIN_WDT_PERIOD, MAX_WDT_PERIOD] at h1 ⊢
    omega
  · intro h1
    simp only [clamp, MIN_WDT_PERIOD, MAX_WDT_PERIOD] at h1 ⊢
    omega

/-- Witness for C5 at the in-range request 7 and out-of-range requests. -/
theorem settimeout_gettimeout_clamp_witness :
    MIN_WDT_PERIOD ≤ (7 : Int) ∧ (7 : Int) ≤ MAX_WDT_PERIOD
    ∧ clamp 7 MIN_WDT_PERIOD MAX_WDT_PERIOD = 7
    ∧ (tegra_wdt_ioctl false probe_state (.SETTIMEOUT 7) true true).2.2.timeout
        = clamp 7 MIN_WDT_PERIOD MAX_WDT_PERIOD
    ∧ clamp 3 MIN_WDT_PERIOD MAX_WDT_PERIOD = MIN_WDT_PERIOD
    ∧ clamp 2000 MIN_WDT_PERIOD MAX_WDT_PERIOD = MAX_WDT_PERIOD := by
  refine ⟨by decide, by decide, ?_, ?_, ?_, ?_⟩
  · exact (settimeout_gettimeout_clamp false probe_state 7).2.2.2.1
      (by decide) (by decide)
  · exact (settimeout_gettimeout_clamp false probe_state 7).2.1
  · exact (settimeout_gettimeout_clamp false probe_state 3).2.2.2.2.1 (by decide)
  · exact (settimeout_gettimeout_clamp false probe_state 2000).2.2.2.2.2 (by decide)

/-- C2: with nowayout off and the instance enabled, a close after a write
whose last byte is 'V' disarms the hardware and sets the status to exactly
WDT_DISABLED; a close after a write whose last byte is not 'V' leaves the
hardware armed (the write itself pinged it) and the status still Enabled. -/
theorem magic_close_controls_disable (w : TegraWdt) (buf : List Char)
    (henabled : w.status.enabled = true) :
    (buf.getLast? = some 'V' →
      (tegra_wdt_release false (tegra_wdt_write w buf true).2).2.armed = false
      ∧ (tegra_wdt_release false (tegra_wdt_write w buf true).2).2.status
          = ⟨true, false, false⟩)
    ∧ (∀ c : Char, buf.getLast? = some c → c ≠ 'V' →
      (tegra_wdt_release false (tegra_wdt_write w buf true).2).2.armed = true
      ∧ (tegra_wdt_release false (tegra_wdt_write w buf true).2).2.status.enabled
          = true) := by
  constructor
  · intro hv
    simp [tegra_wdt_write, hv, tegra_wdt_release, tegra_wdt_disable, henabled]
  · intro c hc hne
    have hb : (c == 'V') = false := by
      simp [hne]
    simp [tegra_wdt_write, hc, hb, tegra_wdt_release, tegra_wdt_disable, henabled]

/-- Witness for C2 at the buffers "okV" and "x" from a freshly opened
instance. -/
theorem magic_close_controls_disable_witness :
    (tegra_wdt_open 60 probe_state).2.status.enabled = true
    ∧ (tegra_wdt_release false
        (tegra_wdt_write (tegra_wdt_open 60 probe_state).2 ['o', 'k', 'V'] true).2).2.armed
        = false
    ∧ (tegra_wdt_release false
        (tegra_wdt_write (tegra_wdt_open 60 probe_state).2 ['x'] true).2).2.status.enabled
        = true := by
  refine ⟨by decide, ?_, ?_⟩
  · exact ((magic_close_controls_disable (tegra_wdt_open 60 probe_state).2
      ['o', 'k', 'V'] (by decide)).1 (by decide)).1
  · exact ((magic_close_controls_disable (tegra_wdt_open 60 probe_state).2
      ['x'] (by decide)).2 'x' (by decide) (by decide)).2

/-- With nowayout set, no single operation ever disarms the hardware. -/
theorem step_preserves_armed (heartbeat : Int) (w : TegraWdt) (op : WdtOp)
    (h : w.armed = true) : (wdt_step heartbeat true w op).armed = true := by
  cases op with
  | op_open =>
    simp only [wdt_step, tegra_wdt_open]
    split
    · exact h
    · simp [tegra_wdt_enable]
  | op_release =>
    simp [wdt_step, tegra_wdt_release, h]
  | op_write buf copyOk =>
    simp only [wdt_step, tegra_wdt_write]
    split
    · exact h
    · split <;> simp
  | op_ioctl cmd r wr =>
    cases cmd with
    | GETSUPPORT => exact h
    | GETSTATUS =>
      simp only [wdt_step, tegra_wdt_ioctl]
      split <;> exact h
    | GETBOOTSTATUS =>
      simp only [wdt_step, tegra_wdt_ioctl]
      split <;> exact h
    | KEEPALIVE => simp [wdt_step, tegra_wdt_ioctl]
    | SETTIMEOUT t =>
      simp only [wdt_step, tegra_wdt_ioctl]
      split
      · exact h
      · split <;> simp [tegra_wdt_enable, tegra_wdt_disable]
    | GETTIMEOUT =>
      simp only [wdt_step, tegra_wdt_ioctl]
      split <;> exact h
    | SETOPTIONS opt =>
      simp only [wdt_step, tegra_wdt_ioctl]
      split
      · exact h
      · split
        · simp_all
        · split
          · simp [tegra_wdt_enable]
          · exact h
    | UNKNOWN => exact h
  | op_interrupt =>
    simp only [wdt_step, tegra_wdt_interrupt]
    split
    · simp
    · exact h

/-- With nowayout set, no sequence of operations ever disarms the hardware. -/
theorem run_preserves_armed (heartbeat : Int) (ops : List WdtOp) :
    ∀ w : TegraWdt, w.armed = true →
      (wdt_run heartbeat true w ops).armed = true := by
  induction ops with
  | nil => intro w h; exact h
  | cons op ops ih =>
    intro w h
    exact ih _ (step_preserves_armed heartbeat w op h)

/-- C1: under the global no-way-out policy, starting from an armed instance
whose status includes Enabled, every sequence of open/write/ioctl/close
operations (and interrupts) leaves the hardware armed; in particular close
leaves the hardware armed and the status Enabled regardless of
`way_out_ok`, and ioctl SETOPTIONS with any option word (DISABLECARD
included) never disarms the hardware. -/
theorem nowayout_never_disarms (heartbeat : Int) (w : TegraWdt)
    (harmed : w.armed = true) (henabled : w.status.enabled = true) :
    (∀ ops : List WdtOp, (wdt_run heartbeat true w ops).armed = true)
    ∧ (tegra_wdt_release true w).2.armed = true
    ∧ (tegra_wdt_release true w).2.status.enabled = true
    ∧ (∀ (opt : Nat) (argReadOk argWriteOk : Bool),
        (tegra_wdt_ioctl true w (.SETOPTIONS opt) argReadOk argWriteOk).2.2.armed
          = true) := by
  refine ⟨fun ops => run_preserves_armed heartbeat ops w harmed, ?_, ?_, ?_⟩
  · simp [tegra_wdt_release, harmed]
  · simp [tegra_wdt_release, henabled]
  · intro opt r wr
    exact step_preserves_armed heartbeat w (.op_ioctl (.SETOPTIONS opt) r wr) harmed

/-- Witness for C1 on a freshly opened instance, closing after a magic
write and attempting SETOPTIONS DISABLECARD. -/
theorem nowayout_never_disarms_witness :
    (tegra_wdt_open 60 probe_state).2.armed = true
    ∧ (tegra_wdt_open 60 probe_state).2.status.enabled = true
    ∧ (tegra_wdt_release true
        (tegra_wdt_open 60 probe_state).2).2.status.enabled = true
    ∧ (tegra_wdt_ioctl true (tegra_wdt_open 60 probe_state).2
        (.SETOPTIONS 1) true true).2.2.armed = true := by
  refine ⟨by decide, by decide, ?_, ?_⟩
  · exact (nowayout_never_disarms 60 (tegra_wdt_open 60 probe_state).2
      (by decide) (by decide)).2.2.1
  · exact (nowayout_never_disarms 60 (tegra_wdt_open 60 probe_state).2
      (by decide) (by decide)).2.2.2 1 true true

/-- The status does not hold the Disabled and Enabled bits at once. -/
def statusOk (st : WdtStatus) : Prop :=
  st.disabled = false ∨ st.enabled = false

instance (st : WdtStatus) : Decidable (statusOk st) := by
  unfold statusOk
  infer_instance

/-- C6 counterexample: opening a freshly probed (Disabled) instance yields a
reachable state whose status holds the Disabled and the Enabled flag
simultaneously, because `tegra_wdt_open` only ORs WDT_ENABLED in and never
clears WDT_DISABLED. -/
theorem status_exclusion_cex :
    Reachable 60 false ⟨(tegra_wdt_open 60 probe_state).2, true⟩
    ∧ (tegra_wdt_open 60 probe_state).2.status.disabled = true
    ∧ (tegra_wdt_open 60 probe_state).2.status.enabled = true := by
  refine ⟨?_, by decide, by decide⟩
  exact Reachable.do_open Reachable.probe

/-- C6 amended: probe establishes the Disabled/Enabled mutual exclusion and
release, every ioctl, write and the interrupt handler preserve it, as does
open on a non-Disabled instance; but open on a Disabled instance sets
Enabled without clearing Disabled, so the exclusion fails right after such
an open. -/
theorem status_exclusion_amended (heartbeat : Int) (nowayout : Bool)
    (w : TegraWdt) :
    statusOk probe_state.status
    ∧ statusOk (probe_heartbeat_state heartbeat).status
    ∧ (statusOk w.status → statusOk (tegra_wdt_release nowayout w).2.status)
    ∧ (∀ (cmd : WdtCmd) (argReadOk argWriteOk : Bool), statusOk w.status →
        statusOk (tegra_wdt_ioctl nowayout w cmd argReadOk argWriteOk).2.2.status)
    ∧ (∀ (buf : List Char) (copyOk : Bool),
        (tegra_wdt_write w buf copyOk).2.status = w.status)
    ∧ (tegra_wdt_interrupt w).status = w.status
    ∧ (statusOk w.status → w.status.disabled = false →
        statusOk (tegra_wdt_open heartbeat w).2.status)
    ∧ (w.status.disabled = true → w.users = false →
        (tegra_wdt_open heartbeat w).2.status.disabled = true
        ∧ (tegra_wdt_open heartbeat w).2.status.enabled = true) := by
  refine ⟨by decide, Or.inl rfl, ?_, ?_, ?_, interrupt_status w, ?_, ?_⟩
  · intro hok
    simp only [tegra_wdt_release, tegra_wdt_disable]
    split
    · split
      · simp [statusOk]
      · exact hok
    · exact hok
  · intro cmd r wr hok
    cases cmd with
    | GETSUPPORT => exact hok
    | GETSTATUS =>
      simp only [tegra_wdt_ioctl]
      split <;> exact hok
    | GETBOOTSTATUS =>
      simp only [tegra_wdt_ioctl]
      split <;> exact hok
    | KEEPALIVE =>
      simpa [tegra_wdt_ioctl] using hok
    | SETTIMEOUT t =>
      simp only [tegra_wdt_ioctl]
      split
      · exact hok
      · split <;> simpa [tegra_wdt_enable, tegra_wdt_disable] using hok
    | GETTIMEOUT =>
      simp only [tegra_wdt_ioctl]
      split <;> exact hok
    | SETOPTIONS opt =>
      simp only [tegra_wdt_ioctl]
      split
      · exact hok
      · split
        · simp [statusOk, tegra_wdt_disable]
        · split
          · simp [statusOk, tegra_wdt_enable]
          · exact hok
    | UNKNOWN => exact hok
  · intro buf copyOk
    simp only [tegra_wdt_write]
    split
    · rfl
    · split <;> simp
  · intro hok hdis
    simp only [tegra_wdt_open]
    split
    · exact hok
    · simp [statusOk, tegra_wdt_enable, hdis]
  · intro hdis husers
    simp [tegra_wdt_open, tegra_wdt_enable, husers, hdis]

/-- Witness for the amended C6 on a freshly opened instance and on the probe
states. -/
theorem status_exclusion_amended_witness :
    statusOk probe_state.status
    ∧ probe_state.status.disabled = true
    ∧ probe_state.users = false
    ∧ (tegra_wdt_open 60 probe_state).2.status.disabled = true
    ∧ (tegra_wdt_open 60 probe_state).2.status.enabled = true
    ∧ statusOk (tegra_wdt_release false probe_state).2.status := by
  refine ⟨by decide, by decide, by decide, ?_, ?_, ?_⟩
  · exact ((status_exclusion_amended 60 false probe_state).2.2.2.2.2.2.2
      (by decide) (by decide)).1
  · exact ((status_exclusion_amended 60 false probe_state).2.2.2.2.2.2.2
      (by decide) (by decide)).2
  · exact (status_exclusion_amended 60 false probe_state).2.2.1 (by decide)

/-- C9 counterexample: open a fresh instance, disarm it with SETOPTIONS
DISABLECARD (nowayout off), then issue a one-byte write whose `get_user`
faults.  The call returns -EFAULT, yet the hardware goes from disarmed to
armed, because the write pings before attempting the copy.  The pre-state
is reachable. -/
theorem fault_frame_cex :
    Reachable 60 false
      ⟨(tegra_wdt_ioctl false (tegra_wdt_open 60 probe_state).2
          (.SETOPTIONS 1) true true).2.2, true⟩
    ∧ (tegra_wdt_ioctl false (tegra_wdt_open 60 probe_state).2
        (.SETOPTIONS 1) true true).2.2.armed = false
    ∧ (tegra_wdt_write
        (tegra_wdt_ioctl false (tegra_wdt_open 60 probe_state).2
          (.SETOPTIONS 1) true true).2.2 ['x'] false).1 = -EFAULT
    ∧ (tegra_wdt_write
        (tegra_wdt_ioctl false (tegra_wdt_open 60 probe_state).2
          (.SETOPTIONS 1) true true).2.2 ['x'] false).2.armed = true := by
  refine ⟨?_, by decide, by decide, by decide⟩
  exact Reachable.do_ioctl (.SETOPTIONS 1) true true
    (Reachable.do_open Reachable.probe) rfl

/-- C9 amended: a failed `get_user` of the SETTIMEOUT or SETOPTIONS
argument returns -EFAULT with no state change, as does a failed `put_user`
on GETTIMEOUT, GETSTATUS and GETBOOTSTATUS; a failed `put_user` of the
SETTIMEOUT reply returns -EFAULT after the clamped timeout has already
been applied; a failed copy on a nonzero-length write returns -EFAULT
leaving timeout, status and `way_out_ok` unchanged but with the hardware
already pinged and re-armed; and a failed GETSUPPORT copy returns the
uncopied byte count rather than -EFAULT, with no state change. -/
theorem fault_frame_amended (nowayout : Bool) (w : TegraWdt) :
    (∀ (t : Int) (wr : Bool),
        tegra_wdt_ioctl nowayout w (.SETTIMEOUT t) false wr = (-EFAULT, none, w))
    ∧ (∀ (opt : Nat) (wr : Bool),
        tegra_wdt_ioctl nowayout w (.SETOPTIONS opt) false wr = (-EFAULT, none, w))
    ∧ (∀ r : Bool,
        tegra_wdt_ioctl nowayout w .GETTIMEOUT r false = (-EFAULT, none, w))
    ∧ (∀ r : Bool,
        tegra_wdt_ioctl nowayout w .GETSTATUS r false = (-EFAULT, none, w))
    ∧ (∀ r : Bool,
        tegra_wdt_ioctl nowayout w .GETBOOTSTATUS r false = (-EFAULT, none, w))
    ∧ (∀ t : Int,
        (tegra_wdt_ioctl nowayout w (.SETTIMEOUT t) true false).1 = -EFAULT
        ∧ (tegra_wdt_ioctl nowayout w (.SETTIMEOUT t) true false).2.1 = none
        ∧ (tegra_wdt_ioctl nowayout w (.SETTIMEOUT t) true false).2.2.timeout
            = clamp t MIN_WDT_PERIOD MAX_WDT_PERIOD)
    ∧ (∀ (buf : List Char) (c : Char), buf.getLast? = some c →
        (tegra_wdt_write w buf false).1 = -EFAULT
        ∧ (tegra_wdt_write w buf false).2.timeout = w.timeout
        ∧ (tegra_wdt_write w buf false).2.status = w.status
        ∧ (tegra_wdt_write w buf false).2.way_out_ok = w.way_out_ok
        ∧ (tegra_wdt_write w buf false).2.ping_count = w.ping_count + 1
        ∧ (tegra_wdt_write w buf false).2.armed = true)
    ∧ (∀ r : Bool,
        tegra_wdt_ioctl nowayout w .GETSUPPORT r false
          = (watchdog_info_size, none, w)) := by
  refine ⟨?_, ?_, ?_, ?_, ?_, ?_, ?_, ?_⟩
  · intro t wr
    simp [tegra_wdt_ioctl]
  · intro opt wr
    simp [tegra_wdt_ioctl]
  · intro r
    simp [tegra_wdt_ioctl]
  · intro r
    simp [tegra_wdt_ioctl]
  · intro r
    simp [tegra_wdt_ioctl]
  · intro t
    simp [tegra_wdt_ioctl, tegra_wdt_enable, tegra_wdt_disable]
  · intro buf c hc
    simp [tegra_wdt_write, hc]
  · intro r
    simp [tegra_wdt_ioctl]

/-- Witness for the amended C9 at the opened probe state and the buffer
"x". -/
theorem fault_frame_amended_witness :
    (['x'] : List Char).getLast? = some 'x'
    ∧ tegra_wdt_ioctl false (tegra_wdt_open 60 probe_state).2
        (.SETTIMEOUT 7) false true
        = (-EFAULT, none, (tegra_wdt_open 60 probe_state).2)
    ∧ (tegra_wdt_write (tegra_wdt_open 60 probe_state).2 ['x'] false).1
        = -EFAULT := by
  refine ⟨by decide, ?_, ?_⟩
  · exact (fault_frame_amended false (tegra_wdt_open 60 probe_state).2).1 7 true
  · exact ((fault_frame_amended false (tegra_wdt_open 60 probe_state).2).2.2.2.2.2.2.1
      ['x'] 'x' (by decide)).1

/-- The applied timeout lies in the legal watchdog period range. -/
def timeout_in_bounds (w : TegraWdt) : Prop :=
  MIN_WDT_PERIOD ≤ w.timeout ∧ w.timeout ≤ MAX_WDT_PERIOD

/-- clamp into [MIN_WDT_PERIOD, MAX_WDT_PERIOD] always lands inside it. -/
theorem clamp_in_bounds (t : Int) :
    MIN_WDT_PERIOD ≤ clamp t MIN_WDT_PERIOD MAX_WDT_PERIOD
    ∧ clamp t MIN_WDT_PERIOD MAX_WDT_PERIOD ≤ MAX_WDT_PERIOD := by
  simp only [clamp, MIN_WDT_PERIOD, MAX_WDT_PERIOD]
  omega

@[simp]
theorem release_timeout (nowayout : Bool) (w : TegraWdt) :
    (tegra_wdt_release nowayout w).2.timeout = w.timeout := by
  simp only [tegra_wdt_release, tegra_wdt_disable]
  split
  · split <;> rfl
  · rfl

@[simp]
theorem write_timeout (w : TegraWdt) (buf : List Char) (copyOk : Bool) :
    (tegra_wdt_write w buf copyOk).2.timeout = w.timeout := by
  simp only [tegra_wdt_write]
  split
  · rfl
  · split <;> simp

/-- Every ioctl keeps the timeout in bounds: SETTIMEOUT clamps, the other
commands do not touch it. -/
theorem ioctl_timeout_bounds (nowayout : Bool) (w : TegraWdt) (cmd : WdtCmd)
    (argReadOk argWriteOk : Bool) (h : timeout_in_bounds w) :
    timeout_in_bounds (tegra_wdt_ioctl nowayout w cmd argReadOk argWriteOk).2.2 := by
  cases cmd with
  | GETSUPPORT => exact h
  | GETSTATUS =>
    simp only [tegra_wdt_ioctl]
    split <;> exact h
  | GETBOOTSTATUS =>
    simp only [tegra_wdt_ioctl]
    split <;> exact h
  | KEEPALIVE =>
    simpa [tegra_wdt_ioctl, timeout_in_bounds] using h
  | SETTIMEOUT t =>
    simp only [tegra_wdt_ioctl]
    split
    · exact h
    · split <;>
        simpa [tegra_wdt_enable, tegra_wdt_disable, timeout_in_bounds]
          using clamp_in_bounds t
  | GETTIMEOUT =>
    simp only [tegra_wdt_ioctl]
    split <;> exact h
  | SETOPTIONS opt =>
    simp only [tegra_wdt_ioctl]
    split
    · exact h
    · split
      · simpa [tegra_wdt_disable, timeout_in_bounds] using h
      · split
        · simpa [tegra_wdt_enable, timeout_in_bounds] using h
        · exact h
  | UNKNOWN => exact h

theorem interrupt_armed (w : TegraWdt) :
    (tegra_wdt_interrupt w).armed = (w.status.kernelHeartbeat || w.armed) := by
  simp only [tegra_wdt_interrupt]
  split
  · simp_all
  · simp_all

/-- Inductive invariant: when the heartbeat module parameter lies in
[5,1000], every reachable state has its timeout in bounds whenever the
hardware is armed, whenever a control session is live, and whenever the
instance is kernel-heartbeat owned. -/
theorem reachable_timeout_invariant (heartbeat : Int) (nowayout : Bool)
    (h5 : MIN_WDT_PERIOD ≤ heartbeat) (h1000 : heartbeat ≤ MAX_WDT_PERIOD)
    (s : SysState) (hr : Reachable heartbeat nowayout s) :
    (s.wdt.armed = true → timeout_in_bounds s.wdt)
    ∧ (s.session = true → timeout_in_bounds s.wdt)
    ∧ (s.wdt.status.kernelHeartbeat = true → timeout_in_bounds s.wdt) := by
  induction hr with
  | probe =>
    refine ⟨?_, ?_, ?_⟩ <;> intro h <;> simp [probe_state] at h
  | probe_hb =>
    have hb : timeout_in_bounds (probe_heartbeat_state heartbeat) := ⟨h5, h1000⟩
    exact ⟨fun _ => hb, fun _ => hb, fun _ => hb⟩
  | do_open hr ih =>
    rename_i t
    by_cases hu : t.wdt.users = true
    · constructor
      · intro ha
        simp only [tegra_wdt_open, hu, if_true] at ha ⊢
        exact ih.1 ha
      · constructor
        · intro hs
          simp only [tegra_wdt_open, hu, if_true]
          simp only [hu, Bool.not_true, Bool.or_false] at hs
          exact ih.2.1 hs
        · intro hk
          simp only [tegra_wdt_open, hu, if_true] at hk ⊢
          exact ih.2.2 hk
    · have hu' : t.wdt.users = false := by
        simpa using hu
      have hb : timeout_in_bounds (tegra_wdt_open heartbeat t.wdt).2 := by
        simp only [tegra_wdt_open, hu', Bool.false_eq_true, if_false,
          tegra_wdt_enable, timeout_in_bounds]
        exact ⟨h5, h1000⟩
      exact ⟨fun _ => hb, fun _ => hb, fun _ => hb⟩
  | do_release hr hs ih =>
    rename_i t
    have hb : timeout_in_bounds (tegra_wdt_release nowayout t.wdt).2 := by
      unfold timeout_in_bounds
      rw [release_timeout]
      exact ih.2.1 hs
    exact ⟨fun _ => hb, fun _ => hb, fun _ => hb⟩
  | do_write buf copyOk hr hs ih =>
    rename_i t
    have hb : timeout_in_bounds (tegra_wdt_write t.wdt buf copyOk).2 := by
      unfold timeout_in_bounds
      rw [write_timeout]
      exact ih.2.1 hs
    exact ⟨fun _ => hb, fun _ => hb, fun _ => hb⟩
  | do_ioctl cmd r wr hr hs ih =>
    rename_i t
    have hb := ioctl_timeout_bounds nowayout t.wdt cmd r wr (ih.2.1 hs)
    exact ⟨fun _ => hb, fun _ => hb, fun _ => hb⟩
  | do_interrupt hr ih =>
    refine ⟨?_, ?_, ?_⟩
    · intro ha
      rw [interrupt_armed] at ha
      unfold timeout_in_bounds
      rw [interrupt_timeout]
      simp only [Bool.or_eq_true] at ha
      rcases ha with hk | harm
      · exact ih.2.2 hk
      · exact ih.1 harm
    · intro hsess
      unfold timeout_in_bounds
      rw [interrupt_timeout]
      exact ih.2.1 hsess
    · intro hk
      rw [interrupt_status] at hk
      unfold timeout_in_bounds
      rw [interrupt_timeout]
      exact ih.2.2 hk

/-- C7: given a heartbeat module parameter within [5,1000], every reachable
state in which the hardware is armed (after open, SETTIMEOUT, SETOPTIONS
ENABLECARD, or the heartbeat enable at probe) has its timeout within
[5,1000]. -/
theorem armed_timeout_in_range (heartbeat : Int) (nowayout : Bool)
    (s : SysState)
    (h5 : MIN_WDT_PERIOD ≤ heartbeat) (h1000 : heartbeat ≤ MAX_WDT_PERIOD)
    (hr : Reachable heartbeat nowayout s) (ha : s.wdt.armed = true) :
    MIN_WDT_PERIOD ≤ s.wdt.timeout ∧ s.wdt.timeout ≤ MAX_WDT_PERIOD :=
  (reachable_timeout_invariant heartbeat nowayout h5 h1000 s hr).1 ha

/-- Witness for C7 at the heartbeat probe state with heartbeat 60. -/
theorem armed_timeout_in_range_witness :
    MIN_WDT_PERIOD ≤ (60 : Int) ∧ (60 : Int) ≤ MAX_WDT_PERIOD
    ∧ (probe_heartbeat_state 60).armed = true
    ∧ MIN_WDT_PERIOD ≤ (probe_heartbeat_state 60).timeout
    ∧ (probe_heartbeat_state 60).timeout ≤ MAX_WDT_PERIOD := by
  refine ⟨by decide, by decide, by decide, ?_, ?_⟩
  · exact (armed_timeout_in_range 60 false ⟨probe_heartbeat_state 60, false⟩
      (by decide) (by decide) Reachable.probe_hb (by decide)).1
  · exact (armed_timeout_in_range 60 false ⟨probe_heartbeat_state 60, false⟩
      (by decide) (by decide) Reachable.probe_hb (by decide)).2
